import Mathlib

/-!
Verification of the filter-set model of the hasjob repository.

The development shallowly embeds `hasjob/models/filterset.py` and the
alembic migration `80a7e6c31df_index_jobpost_datetime.py`:

* a `Filterset` structure mirrors the columns of the `filterset` table
  that participate in `to_filters` / `from_filters` / the pre-save hook;
* a `DB` structure holds the persisted rows: the filterset rows, the four
  entity tables (jobtype, jobcategory, tag, domain, each a list of
  `(id, name)` pairs) and the four association tables (each a list of
  `(filterset_id, entity_id)` pairs);
* `Filterset.from_filters` is embedded by its SQL denotation.  The Python
  method chains `.join`/`.filter`/`.group_by`/`.having` calls onto one
  query, so every supplied many-to-many criterion contributes inner joins
  to the SAME select.  A group for a filterset row therefore contains the
  cross product of its matching association rows of every joined kind,
  and each `HAVING count(assoc.filterset_id) == len(list)` clause
  compares that one group size (`group_count` below) with the raw length
  of the corresponding list.  Absent criteria are embedded as the
  `NOT EXISTS` / `IS NULL` / equality checks the code emits;
* `one_or_none` is embedded by `Except`: `ok none` for no row, `ok fs`
  for exactly one, an error for two or more;
* the `before_insert`/`before_update` listener `_format_and_validate` is
  embedded as a function from the target row to `Except SaveError
  Filterset`: the saved row on success, an error when the hook raises.

Python truthiness of the dictionary values (`filters.get(key)`) is
embedded per type: a list is truthy iff non-empty, an optional int iff
present and non-zero, an optional string iff present and non-empty, a
string iff non-empty, a bool iff `true`.
-/

/-- One row of the `filterset` table (`class Filterset`, filterset.py
lines 81-114), restricted to the columns that `to_filters`,
`from_filters` and `_format_and_validate` read: primary key, board
foreign key, `geonameids` (integer array), `remote_location`,
`pay_currency` (nullable), `pay_cash` (nullable), `equity`, `keywords`. -/
structure Filterset where
  id : Nat
  board_id : Nat
  geonameids : List Int
  remote_location : Bool
  pay_currency : Option String
  pay_cash : Option Int
  equity : Bool
  keywords : String
deriving DecidableEq

/-- The persisted database state visible to `Filterset.from_filters`:
the `filterset` rows, the four entity tables as `(id, name)` lists and
the four association tables (filterset.py lines 16-78) as
`(filterset_id, entity_id)` lists.  Entity ids are primary keys, so a
lookup takes the first (unique) row with the given id. -/
structure DB where
  filtersets : List Filterset
  jobtypes : List (Nat × String)
  jobcategories : List (Nat × String)
  tags : List (Nat × String)
  domains : List (Nat × String)
  fs_jobtype : List (Nat × Nat)
  fs_jobcategory : List (Nat × Nat)
  fs_tag : List (Nat × Nat)
  fs_domain : List (Nat × Nat)
deriving DecidableEq

/-- The filter-criteria dictionary exchanged by `to_filters` and
`from_filters`.  A key that is absent from the Python dict is falsy
under `filters.get`, exactly like the empty/none/false value of the
corresponding field here, so absence is embedded by those defaults. -/
structure Filters where
  t : List String
  c : List String
  k : List String
  d : List String
  l : List Int
  currency : Option String
  pay : Option Int
  equity : Bool
  anywhere : Bool
  q : String
deriving DecidableEq

deriving instance DecidableEq for Except

/-- Python `sorted` on a list of integers: ascending order. -/
def pysorted (l : List Int) : List Int :=
  List.insertionSort (· ≤ ·) l

/-- Python truthiness of `filters.get('pay')`: present and non-zero. -/
def pay_truthy (p : Option Int) : Bool :=
  match p with
  | none => false
  | some n => decide (n ≠ 0)

/-- Python truthiness of `filters.get('currency')`: present, non-empty. -/
def currency_truthy (c : Option String) : Bool :=
  match c with
  | none => false
  | some s => decide (s ≠ "")

/-- Name of the entity with primary key `eid`, if any (the inner join
from an association row to its entity table). -/
def entity_name (entities : List (Nat × String)) (eid : Nat) : Option String :=
  (entities.find? (fun e => e.1 == eid)).map (fun e => e.2)

/-- Number of association rows of `fsid` in `assoc`: the count probed by
the correlated `NOT EXISTS (SELECT 1 WHERE filterset.id =
assoc.filterset_id)` branches of `from_filters`. -/
def assoc_count (assoc : List (Nat × Nat)) (fsid : Nat) : Nat :=
  (assoc.filter (fun p => p.1 == fsid)).length

/-- The `Entity.name IN (names)` test on the (optional) entity a join
row resolves to; an unresolved entity joins to no row. -/
def name_in (names : List String) (o : Option String) : Bool :=
  match o with
  | some n => decide (n ∈ names)
  | none => false

/-- Number of association rows of `fsid` whose entity resolves and has a
name in `names`: the rows the `.join(assoc).join(Entity)
.filter(Entity.name.in_(names))` chain keeps for this filterset. -/
def match_count (entities : List (Nat × String)) (assoc : List (Nat × Nat))
    (fsid : Nat) (names : List String) : Nat :=
  (assoc.filter (fun p => p.1 == fsid && name_in names (entity_name entities p.2))).length

/-- The names of the entities associated to `fsid`, in association-table
order: the ORM relationship list comprehensions of `to_filters`
(filterset.py lines 137-140). -/
def assoc_names (entities : List (Nat × String)) (assoc : List (Nat × Nat))
    (fsid : Nat) : List String :=
  (assoc.filter (fun p => p.1 == fsid)).filterMap (fun p => entity_name entities p.2)

/-- Size of the group the composed query builds for filterset `fsid`:
every supplied criterion adds inner joins on the same select, so the
group rows are the cross product of the matching association rows of
each joined kind.  Kinds whose list is empty contribute no join, hence
factor 1. -/
def group_count (db : DB) (f : Filters) (fsid : Nat) : Nat :=
  (if f.t.isEmpty then 1 else match_count db.jobtypes db.fs_jobtype fsid f.t) *
    ((if f.c.isEmpty then 1 else match_count db.jobcategories db.fs_jobcategory fsid f.c) *
      ((if f.k.isEmpty then 1 else match_count db.tags db.fs_tag fsid f.k) *
        (if f.d.isEmpty then 1 else match_count db.domains db.fs_domain fsid f.d)))

/-- The four many-to-many clauses of `from_filters` (filterset.py lines
153-239) for filterset `fsid`: a supplied list requires the group size
to equal the raw list length (`HAVING count(assoc.filterset_id) ==
len(filters[key])`); an absent/empty list requires no association row of
that kind at all (`NOT EXISTS`). -/
def assocs_ok (db : DB) (f : Filters) (fsid : Nat) : Bool :=
  (if f.t.isEmpty then assoc_count db.fs_jobtype fsid == 0
   else group_count db f fsid == f.t.length) &&
  ((if f.c.isEmpty then assoc_count db.fs_jobcategory fsid == 0
    else group_count db f fsid == f.c.length) &&
   ((if f.k.isEmpty then assoc_count db.fs_tag fsid == 0
     else group_count db f fsid == f.k.length) &&
    (if f.d.isEmpty then assoc_count db.fs_domain fsid == 0
     else group_count db f fsid == f.d.length)))

/-- The scalar clauses of `from_filters` (filterset.py lines 241-268):
location list (array equality against the sorted list, or emptiness),
equity flag, pay amount with currency (equality when both truthy, `IS
NULL` on both columns otherwise), keywords and remote flag. -/
def scalars_ok (f : Filters) (fs : Filterset) : Bool :=
  (if f.l.isEmpty then fs.geonameids == ([] : List Int)
   else fs.geonameids == pysorted f.l) &&
  ((if f.equity then fs.equity else !fs.equity) &&
   ((if pay_truthy f.pay && currency_truthy f.currency then
       fs.pay_cash == f.pay && fs.pay_currency == f.currency
     else fs.pay_cash == none && fs.pay_currency == none) &&
    ((if f.q == "" then fs.keywords == "" else fs.keywords == f.q) &&
     (if f.anywhere then fs.remote_location else !fs.remote_location))))

/-- The full row predicate of the query `from_filters` composes for
`board` and `filters`: board scope, the four many-to-many clauses and
the scalar clauses. -/
def row_matches (db : DB) (board : Nat) (f : Filters) (fs : Filterset) : Bool :=
  fs.board_id == board && (assocs_ok db f fs.id && scalars_ok f fs)

/-- `Filterset.from_filters` (filterset.py lines 149-270): compose the
predicate, then `one_or_none()`: no matching row yields `ok none`, a
unique matching row yields `ok (some row)`, several matching rows raise
`MultipleResultsFound`. -/
def Filterset.from_filters (db : DB) (board : Nat) (f : Filters) :
    Except String (Option Filterset) :=
  match db.filtersets.filter (row_matches db board f) with
  | [] => Except.ok none
  | [fs] => Except.ok (some fs)
  | _ => Except.error "MultipleResultsFound"

/-- `Filterset.to_filters` with the default `translate_geonameids=False`
(filterset.py lines 127-147): the canonical dictionary of a row, with
the association names read through the ORM relationships. -/
def Filterset.to_filters (db : DB) (fs : Filterset) : Filters :=
  { t := assoc_names db.jobtypes db.fs_jobtype fs.id
    c := assoc_names db.jobcategories db.fs_jobcategory fs.id
    k := assoc_names db.tags db.fs_tag fs.id
    d := assoc_names db.domains db.fs_domain fs.id
    l := fs.geonameids
    currency := fs.pay_currency
    pay := fs.pay_cash
    equity := fs.equity
    anywhere := fs.remote_location
    q := fs.keywords }

/-- Outcome of the pre-save listener: the Python `ValueError` raised on
a detected criteria collision, or the `MultipleResultsFound` raised by
`one_or_none` inside the lookup. -/
inductive SaveError where
  | valueError
  | multipleResultsFound
deriving DecidableEq

/-- The geonameids normalisation at the top of `_format_and_validate`
(filterset.py lines 277-278): a truthy (non-empty) list is replaced by
its sorted copy, an empty list is left alone. -/
def normalize_geonameids (fs : Filterset) : Filterset :=
  if fs.geonameids.isEmpty then fs
  else { fs with geonameids := pysorted fs.geonameids }

/-- The `before_insert` / `before_update` listener `_format_and_validate`
(filterset.py lines 273-284): sort `geonameids`, re-derive the canonical
dictionary, look it up with `from_filters`, and raise `ValueError` when
a different row is found; otherwise the (normalised) target is saved. -/
def format_and_validate (db : DB) (target : Filterset) : Except SaveError Filterset :=
  match Filterset.from_filters db (normalize_geonameids target).board_id
      (Filterset.to_filters db (normalize_geonameids target)) with
  | Except.error _ => Except.error SaveError.multipleResultsFound
  | Except.ok none => Except.ok (normalize_geonameids target)
  | Except.ok (some fs) =>
      if fs.id == (normalize_geonameids target).id then
        Except.ok (normalize_geonameids target)
      else Except.error SaveError.valueError

/-- Well-formedness of a database state: filterset primary keys are
unique, as the relational schema guarantees. -/
def well_formed (db : DB) : Prop :=
  (db.filtersets.map Filterset.id).Nodup

/-- One relational index, as created by the alembic operations of
migration `80a7e6c31df`. -/
structure SchemaIndex where
  name : String
  table : String
  columns : List String
  unique : Bool
deriving DecidableEq

/-- The part of the relational schema the migration manipulates. -/
structure Schema where
  indexes : List SchemaIndex
deriving DecidableEq

/-- `op.create_index(name, table, columns, unique=...)`. -/
def create_index (idx : SchemaIndex) (s : Schema) : Schema :=
  { indexes := s.indexes ++ [idx] }

/-- `op.drop_index(name, table_name=...)`: removes the index with that
name on that table. -/
def drop_index (n tbl : String) (s : Schema) : Schema :=
  { indexes := s.indexes.filter (fun i => !(i.name == n && i.table == tbl)) }

/-- `upgrade()` of migration `80a7e6c31df_index_jobpost_datetime.py`. -/
def upgrade (s : Schema) : Schema :=
  create_index
    { name := "ix_jobpost_datetime", table := "jobpost",
      columns := ["datetime"], unique := false } s

/-- `downgrade()` of migration `80a7e6c31df_index_jobpost_datetime.py`. -/
def downgrade (s : Schema) : Schema :=
  drop_index "ix_jobpost_datetime" "jobpost" s

/-!  Helper lemmas about the query combinators. -/

/-- Filtering through the optional-name predicate counts the same rows
as resolving the names first and filtering after. -/
lemma filter_match_length {α : Type} (g : α → Option String) (names : List String)
    (m : List α) :
    (m.filter (fun a => name_in names (g a))).length
      = ((m.filterMap g).filter (fun n => decide (n ∈ names))).length := by
  induction m with
  | nil => rfl
  | cons a as ih =>
    cases hg : g a with
    | none =>
      have h1 : name_in names none = false := rfl
      simp [List.filter_cons, List.filterMap_cons, hg, h1, ih]
    | some b =>
      have h1 : name_in names (some b) = decide (b ∈ names) := rfl
      cases hr : decide (b ∈ names) with
      | false => simp [List.filter_cons, List.filterMap_cons, hg, h1, hr, ih]
      | true => simp [List.filter_cons, List.filterMap_cons, hg, h1, hr, ih]

/-- The joined-row count of a supplied name list is the number of the
filterset's association names that lie in the list (with multiplicity). -/
lemma match_count_eq (entities : List (Nat × String)) (assoc : List (Nat × Nat))
    (fsid : Nat) (names : List String) :
    match_count entities assoc fsid names
      = ((assoc_names entities assoc fsid).filter (fun n => decide (n ∈ names))).length := by
  unfold match_count assoc_names
  rw [← filter_match_length]
  rw [List.filter_filter]
  congr 1
  apply List.filter_congr
  intro p _
  rw [Bool.and_comm]

/-- `filterMap` drops nothing when the map succeeds everywhere. -/
lemma filterMap_length_of_isSome {α β : Type} (g : α → Option β) (m : List α)
    (h : ∀ a ∈ m, (g a).isSome) : (m.filterMap g).length = m.length := by
  induction m with
  | nil => rfl
  | cons a as ih =>
    cases hg : g a with
    | none =>
      exact absurd (h a (List.mem_cons_self a as)) (by simp [hg])
    | some b =>
      simp only [List.filterMap_cons, hg, List.length_cons]
      rw [ih (fun x hx => h x (List.mem_cons_of_mem a hx))]

/-- When every association row of the filterset resolves to an entity,
the relationship list has one name per association row. -/
lemma assoc_names_length (entities : List (Nat × String)) (assoc : List (Nat × Nat))
    (fsid : Nat)
    (hres : ∀ p ∈ assoc, p.1 = fsid → (entity_name entities p.2).isSome) :
    (assoc_names entities assoc fsid).length = assoc_count assoc fsid := by
  unfold assoc_names assoc_count
  apply filterMap_length_of_isSome
  intro p hp
  rw [List.mem_filter] at hp
  exact hres p hp.1 (by simpa using hp.2)

/-- A filterset with no association rows of a kind has the empty
relationship list of that kind. -/
lemma assoc_names_nil (entities : List (Nat × String)) (assoc : List (Nat × Nat))
    (fsid : Nat) (h : assoc_count assoc fsid = 0) :
    assoc_names entities assoc fsid = [] := by
  unfold assoc_count at h
  unfold assoc_names
  rw [List.length_eq_zero.mp h]
  rfl

/-- Keeping the members of a duplicate-free list `T` out of a
duplicate-free list `N` that contains them keeps exactly `T.length`
elements. -/
lemma length_filter_mem {N T : List String} (hN : N.Nodup) (hT : T.Nodup)
    (hsub : ∀ x ∈ T, x ∈ N) :
    (N.filter (fun n => decide (n ∈ T))).length = T.length := by
  have h1 : (N.filter (fun n => decide (n ∈ T))).Nodup := hN.filter _
  rw [← List.toFinset_card_of_nodup h1, ← List.toFinset_card_of_nodup hT]
  congr 1
  ext x
  simp only [List.mem_toFinset, List.mem_filter, decide_eq_true_eq]
  exact ⟨fun h => h.2, fun h => ⟨hsub x h, h⟩⟩

/-- A duplicate-free list whose filtered part contains a given member
and nothing else filters to the singleton of that member. -/
lemma filter_eq_singleton {α : Type} {l : List α} {p : α → Bool} {a : α}
    (hnd : l.Nodup) (ha : a ∈ l) (hp : p a = true)
    (huniq : ∀ b ∈ l, p b = true → b = a) :
    l.filter p = [a] := by
  have hmem : a ∈ l.filter p := List.mem_filter.mpr ⟨ha, hp⟩
  have hall : ∀ b ∈ l.filter p, b = a := fun b hb =>
    huniq b (List.mem_filter.mp hb).1 (List.mem_filter.mp hb).2
  have hndf : (l.filter p).Nodup := hnd.filter p
  cases hfp : l.filter p with
  | nil => rw [hfp] at hmem; cases hmem
  | cons x xs =>
    cases xs with
    | nil =>
      rw [hfp] at hall
      rw [hall x (by simp)]
    | cons y ys =>
      rw [hfp] at hall hndf
      have hx : x = a := hall x (by simp)
      have hy : y = a := hall y (by simp)
      rw [List.nodup_cons] at hndf
      exact absurd (by rw [hx, hy]; exact List.mem_cons_self a ys) hndf.1

/-- `normalize_geonameids` keeps every column except `geonameids`. -/
lemma normalize_id (fs : Filterset) : (normalize_geonameids fs).id = fs.id := by
  unfold normalize_geonameids
  split <;> rfl

/-- The board column is untouched by the geonameids normalisation. -/
lemma normalize_board (fs : Filterset) : (normalize_geonameids fs).board_id = fs.board_id := by
  unfold normalize_geonameids
  split <;> rfl

/-- The joined-row count of a filterset's own association names against
themselves is the number of those names. -/
lemma match_count_own (entities : List (Nat × String)) (assoc : List (Nat × Nat))
    (fsid : Nat) :
    match_count entities assoc fsid (assoc_names entities assoc fsid)
      = (assoc_names entities assoc fsid).length := by
  rw [match_count_eq]
  congr 1
  rw [List.filter_eq_self]
  intro n hn
  simpa using hn

/-- The group size the composed query builds for a row looked up with
its own dictionary: the product, over the four kinds, of the row's
association count when non-zero (a populated kind contributes its
joined rows) and 1 otherwise (an empty kind adds no join). -/
def own_group (db : DB) (fs : Filterset) : Nat :=
  (if assoc_count db.fs_jobtype fs.id = 0 then 1
   else assoc_count db.fs_jobtype fs.id) *
    ((if assoc_count db.fs_jobcategory fs.id = 0 then 1
      else assoc_count db.fs_jobcategory fs.id) *
      ((if assoc_count db.fs_tag fs.id = 0 then 1
        else assoc_count db.fs_tag fs.id) *
        (if assoc_count db.fs_domain fs.id = 0 then 1
         else assoc_count db.fs_domain fs.id)))

/-- A row matches its own `to_filters` dictionary provided every of its
association rows resolves to an entity, every populated kind's HAVING
clause is satisfiable against the row itself (the cross-product group
size `own_group` equals that kind's association count), its
`geonameids` are already sorted, and its pay columns are either both
truthy or both null.  The group condition holds in particular whenever
at most one kind is populated, and whenever every populated kind has
exactly one association. -/
lemma matches_self (db : DB) (fs : Filterset)
    (hres_t : ∀ p ∈ db.fs_jobtype, p.1 = fs.id → (entity_name db.jobtypes p.2).isSome)
    (hres_c : ∀ p ∈ db.fs_jobcategory, p.1 = fs.id → (entity_name db.jobcategories p.2).isSome)
    (hres_k : ∀ p ∈ db.fs_tag, p.1 = fs.id → (entity_name db.tags p.2).isSome)
    (hres_d : ∀ p ∈ db.fs_domain, p.1 = fs.id → (entity_name db.domains p.2).isSome)
    (hprod_t : assoc_count db.fs_jobtype fs.id = 0
        ∨ own_group db fs = assoc_count db.fs_jobtype fs.id)
    (hprod_c : assoc_count db.fs_jobcategory fs.id = 0
        ∨ own_group db fs = assoc_count db.fs_jobcategory fs.id)
    (hprod_k : assoc_count db.fs_tag fs.id = 0
        ∨ own_group db fs = assoc_count db.fs_tag fs.id)
    (hprod_d : assoc_count db.fs_domain fs.id = 0
        ∨ own_group db fs = assoc_count db.fs_domain fs.id)
    (hsor : List.Sorted (· ≤ ·) fs.geonameids)
    (hpay : (pay_truthy fs.pay_cash = true ∧ currency_truthy fs.pay_currency = true)
        ∨ (fs.pay_cash = none ∧ fs.pay_currency = none)) :
    row_matches db fs.board_id (Filterset.to_filters db fs) fs = true := by
  have hlen_t := assoc_names_length db.jobtypes db.fs_jobtype fs.id hres_t
  have hlen_c := assoc_names_length db.jobcategories db.fs_jobcategory fs.id hres_c
  have hlen_k := assoc_names_length db.tags db.fs_tag fs.id hres_k
  have hlen_d := assoc_names_length db.domains db.fs_domain fs.id hres_d
  have hft : (Filterset.to_filters db fs).t
      = assoc_names db.jobtypes db.fs_jobtype fs.id := rfl
  have hfc : (Filterset.to_filters db fs).c
      = assoc_names db.jobcategories db.fs_jobcategory fs.id := rfl
  have hfk : (Filterset.to_filters db fs).k
      = assoc_names db.tags db.fs_tag fs.id := rfl
  have hfd : (Filterset.to_filters db fs).d
      = assoc_names db.domains db.fs_domain fs.id := rfl
  have hfac_t : (if (assoc_names db.jobtypes db.fs_jobtype fs.id).isEmpty then 1
      else match_count db.jobtypes db.fs_jobtype fs.id
        (assoc_names db.jobtypes db.fs_jobtype fs.id))
      = (if assoc_count db.fs_jobtype fs.id = 0 then 1
         else assoc_count db.fs_jobtype fs.id) := by
    by_cases hz : assoc_count db.fs_jobtype fs.id = 0
    · rw [if_pos hz, List.length_eq_zero.mp (hlen_t.trans hz)]
      rfl
    · rw [if_neg hz,
        if_neg (fun hh => hz (hlen_t.symm.trans (List.isEmpty_iff_length_eq_zero.mp hh)))]
      rw [match_count_own, hlen_t]
  have hfac_c : (if (assoc_names db.jobcategories db.fs_jobcategory fs.id).isEmpty then 1
      else match_count db.jobcategories db.fs_jobcategory fs.id
        (assoc_names db.jobcategories db.fs_jobcategory fs.id))
      = (if assoc_count db.fs_jobcategory fs.id = 0 then 1
         else assoc_count db.fs_jobcategory fs.id) := by
    by_cases hz : assoc_count db.fs_jobcategory fs.id = 0
    · rw [if_pos hz, List.length_eq_zero.mp (hlen_c.trans hz)]
      rfl
    · rw [if_neg hz,
        if_neg (fun hh => hz (hlen_c.symm.trans (List.isEmpty_iff_length_eq_zero.mp hh)))]
      rw [match_count_own, hlen_c]
  have hfac_k : (if (assoc_names db.tags db.fs_tag fs.id).isEmpty then 1
      else match_count db.tags db.fs_tag fs.id
        (assoc_names db.tags db.fs_tag fs.id))
      = (if assoc_count db.fs_tag fs.id = 0 then 1
         else assoc_count db.fs_tag fs.id) := by
    by_cases hz : assoc_count db.fs_tag fs.id = 0
    · rw [if_pos hz, List.length_eq_zero.mp (hlen_k.trans hz)]
      rfl
    · rw [if_neg hz,
        if_neg (fun hh => hz (hlen_k.symm.trans (List.isEmpty_iff_length_eq_zero.mp hh)))]
      rw [match_count_own, hlen_k]
  have hfac_d : (if (assoc_names db.domains db.fs_domain fs.id).isEmpty then 1
      else match_count db.domains db.fs_domain fs.id
        (assoc_names db.domains db.fs_domain fs.id))
      = (if assoc_count db.fs_domain fs.id = 0 then 1
         else assoc_count db.fs_domain fs.id) := by
    by_cases hz : assoc_count db.fs_domain fs.id = 0
    · rw [if_pos hz, List.length_eq_zero.mp (hlen_d.trans hz)]
      rfl
    · rw [if_neg hz,
        if_neg (fun hh => hz (hlen_d.symm.trans (List.isEmpty_iff_length_eq_zero.mp hh)))]
      rw [match_count_own, hlen_d]
  have hgroup : group_count db (Filterset.to_filters db fs) fs.id = own_group db fs := by
    unfold group_count own_group
    rw [hft, hfc, hfk, hfd, hfac_t, hfac_c, hfac_k, hfac_d]
  have hao : assocs_ok db (Filterset.to_filters db fs) fs.id = true := by
    unfold assocs_ok
    rw [hft, hfc, hfk, hfd, hgroup]
    simp only [Bool.and_eq_true]
    refine ⟨?_, ?_, ?_, ?_⟩
    · by_cases hz : assoc_count db.fs_jobtype fs.id = 0
      · rw [List.length_eq_zero.mp (hlen_t.trans hz)]
        simp [hz]
      · rw [if_neg (fun hh => hz (hlen_t.symm.trans (List.isEmpty_iff_length_eq_zero.mp hh)))]
        rw [hlen_t, hprod_t.resolve_left hz]
        simp
    · by_cases hz : assoc_count db.fs_jobcategory fs.id = 0
      · rw [List.length_eq_zero.mp (hlen_c.trans hz)]
        simp [hz]
      · rw [if_neg (fun hh => hz (hlen_c.symm.trans (List.isEmpty_iff_length_eq_zero.mp hh)))]
        rw [hlen_c, hprod_c.resolve_left hz]
        simp
    · by_cases hz : assoc_count db.fs_tag fs.id = 0
      · rw [List.length_eq_zero.mp (hlen_k.trans hz)]
        simp [hz]
      · rw [if_neg (fun hh => hz (hlen_k.symm.trans (List.isEmpty_iff_length_eq_zero.mp hh)))]
        rw [hlen_k, hprod_k.resolve_left hz]
        simp
    · by_cases hz : assoc_count db.fs_domain fs.id = 0
      · rw [List.length_eq_zero.mp (hlen_d.trans hz)]
        simp [hz]
      · rw [if_neg (fun hh => hz (hlen_d.symm.trans (List.isEmpty_iff_length_eq_zero.mp hh)))]
        rw [hlen_d, hprod_d.resolve_left hz]
        simp
  have hsc : scalars_ok (Filterset.to_filters db fs) fs = true := by
    unfold scalars_ok Filterset.to_filters
    simp only []
    have h1 : (if fs.geonameids.isEmpty then fs.geonameids == ([] : List Int)
        else fs.geonameids == pysorted fs.geonameids) = true := by
      by_cases hge : fs.geonameids.isEmpty
      · rw [if_pos hge]
        simp [List.isEmpty_iff.mp hge]
      · rw [if_neg hge]
        unfold pysorted
        rw [hsor.insertionSort_eq]
        simp
    have h2 : (if fs.equity then fs.equity else !fs.equity) = true := by
      cases he : fs.equity <;> simp
    have h3 : (if pay_truthy fs.pay_cash && currency_truthy fs.pay_currency then
          fs.pay_cash == fs.pay_cash && fs.pay_currency == fs.pay_currency
        else fs.pay_cash == none && fs.pay_currency == none) = true := by
      cases hpay with
      | inl h => rw [if_pos (by rw [h.1, h.2]; rfl)]; simp
      | inr h => rw [h.1, h.2]; simp [pay_truthy]
    have h4 : (if fs.keywords == "" then fs.keywords == ""
        else fs.keywords == fs.keywords) = true := by
      by_cases hq : fs.keywords == ""
      · rw [if_pos hq]; exact hq
      · rw [if_neg hq]; simp
    have h5 : (if fs.remote_location then fs.remote_location
        else !fs.remote_location) = true := by
      cases hr : fs.remote_location <;> simp
    rw [h1, h2, h3, h4, h5]
    rfl
  unfold row_matches
  rw [hao, hsc]
  simp

/-- C8: the migration's upgrade step adds the non-unique index
`ix_jobpost_datetime` on the `jobpost` table's `datetime` column, and
the downgrade step drops exactly that index, restoring the prior
schema. -/
theorem C8_index_migration (s : Schema)
    (h : ∀ i ∈ s.indexes, ¬(i.name = "ix_jobpost_datetime" ∧ i.table = "jobpost")) :
    ({ name := "ix_jobpost_datetime", table := "jobpost",
       columns := ["datetime"], unique := false } : SchemaIndex) ∈ (upgrade s).indexes
      ∧ downgrade (upgrade s) = s := by
  constructor
  · simp [upgrade, create_index]
  · unfold downgrade upgrade create_index drop_index
    simp only [List.filter_append]
    have h1 : s.indexes.filter
        (fun i => !(i.name == "ix_jobpost_datetime" && i.table == "jobpost")) = s.indexes := by
      rw [List.filter_eq_self]
      intro i hi
      have h2 := h i hi
      simp only [Bool.not_eq_true', Bool.and_eq_false_iff, beq_eq_false_iff_ne]
      by_cases hn : i.name = "ix_jobpost_datetime"
      · exact Or.inr (fun ht => h2 ⟨hn, ht⟩)
      · exact Or.inl hn
    rw [h1]
    simp

/-- C8 witness: on the empty schema, upgrade adds the index and
downgrade restores the empty schema. -/
theorem C8_witness :
    ({ name := "ix_jobpost_datetime", table := "jobpost",
       columns := ["datetime"], unique := false } : SchemaIndex)
        ∈ (upgrade { indexes := [] }).indexes
      ∧ downgrade (upgrade { indexes := [] }) = { indexes := [] } :=
  C8_index_migration { indexes := [] } (by simp)

/-- C5: a successful insert or update stores `geonameids` in ascending
sorted order, and as a permutation of (hence the same multiset as) the
submitted list, whatever its input order was. -/
theorem C5_geonameids_sorted (db : DB) (target r : Filterset)
    (h : format_and_validate db target = Except.ok r) :
    List.Sorted (· ≤ ·) r.geonameids ∧ r.geonameids.Perm target.geonameids := by
  have hr : r = normalize_geonameids target := by
    unfold format_and_validate at h
    split at h
    · cases h
    · exact (Except.ok.inj h).symm
    · split at h
      · exact (Except.ok.inj h).symm
      · cases h
  subst hr
  unfold normalize_geonameids
  by_cases he : target.geonameids.isEmpty
  · rw [if_pos he]
    rw [List.isEmpty_iff.mp he]
    exact ⟨List.sorted_nil, List.Perm.refl _⟩
  · rw [if_neg he]
    constructor
    · exact List.sorted_insertionSort _ _
    · exact List.perm_insertionSort _ _

/-- A filterset row with the given id and board and no criteria at all
(field order: id, board_id, geonameids, remote_location, pay_currency,
pay_cash, equity, keywords). -/
def blank_row (i board : Nat) : Filterset :=
  ⟨i, board, [], false, none, none, false, ""⟩

/-- A database holding only the given filterset rows, with every entity
and association table empty. -/
def rows_only (rows : List Filterset) : DB :=
  ⟨rows, [], [], [], [], [], [], [], []⟩

/-- The dictionary with every filter key absent. -/
def empty_filters : Filters :=
  ⟨[], [], [], [], [], none, none, false, false, ""⟩

/-- Save target used by the C5 witness: unsorted geonameids. -/
def ex5_target : Filterset :=
  ⟨1, 0, [3, 1, 2], false, none, none, false, ""⟩

/-- C5 witness: saving a row with geonameids `[3, 1, 2]` stores them
sorted ascending, as a permutation of the input. -/
theorem C5_witness :
    List.Sorted (· ≤ ·) (normalize_geonameids ex5_target).geonameids
      ∧ (normalize_geonameids ex5_target).geonameids.Perm ex5_target.geonameids :=
  C5_geonameids_sorted (rows_only []) ex5_target _ (by decide)

/-- C4: `from_filters` returns `ok none` when no stored row matches the
composed predicate, returns the unique matching row otherwise, and
fails loudly (raises `MultipleResultsFound`) whenever two distinct
stored rows match, rather than silently returning one of them. -/
theorem C4_one_or_none (db : DB) (board : Nat) (f : Filters) :
    ((∀ fs ∈ db.filtersets, row_matches db board f fs = false) →
        Filterset.from_filters db board f = Except.ok none)
    ∧ (∀ fs, Filterset.from_filters db board f = Except.ok (some fs) →
        fs ∈ db.filtersets ∧ row_matches db board f fs = true
          ∧ ∀ g ∈ db.filtersets, row_matches db board f g = true → g = fs)
    ∧ (∀ fs g, fs ∈ db.filtersets → g ∈ db.filtersets → fs ≠ g →
        row_matches db board f fs = true → row_matches db board f g = true →
        Filterset.from_filters db board f = Except.error "MultipleResultsFound") := by
  refine ⟨?_, ?_, ?_⟩
  · intro h
    have hfil : db.filtersets.filter (row_matches db board f) = [] := by
      rw [List.filter_eq_nil_iff]
      intro a ha
      rw [h a ha]
      simp
    unfold Filterset.from_filters
    rw [hfil]
  · intro fs h
    cases hfil : db.filtersets.filter (row_matches db board f) with
    | nil =>
      unfold Filterset.from_filters at h
      rw [hfil] at h
      cases h
    | cons x xs =>
      cases xs with
      | nil =>
        unfold Filterset.from_filters at h
        rw [hfil] at h
        have hx : x = fs := Option.some.inj (Except.ok.inj h)
        subst hx
        have hmem : x ∈ db.filtersets.filter (row_matches db board f) := by
          rw [hfil]; exact List.mem_singleton.mpr rfl
        rw [List.mem_filter] at hmem
        refine ⟨hmem.1, hmem.2, ?_⟩
        intro g hg hmg
        have hgf : g ∈ db.filtersets.filter (row_matches db board f) :=
          List.mem_filter.mpr ⟨hg, hmg⟩
        rw [hfil] at hgf
        exact List.mem_singleton.mp hgf
      | cons y ys =>
        unfold Filterset.from_filters at h
        rw [hfil] at h
        cases h
  · intro fs g hfs hg hne hmf hmg
    have hfs' : fs ∈ db.filtersets.filter (row_matches db board f) :=
      List.mem_filter.mpr ⟨hfs, hmf⟩
    have hg' : g ∈ db.filtersets.filter (row_matches db board f) :=
      List.mem_filter.mpr ⟨hg, hmg⟩
    cases hfil : db.filtersets.filter (row_matches db board f) with
    | nil =>
      rw [hfil] at hfs'
      cases hfs'
    | cons x xs =>
      cases xs with
      | nil =>
        rw [hfil] at hfs' hg'
        have h1 := List.mem_singleton.mp hfs'
        have h2 := List.mem_singleton.mp hg'
        exact absurd (h1.trans h2.symm) hne
      | cons y ys =>
        unfold Filterset.from_filters
        rw [hfil]

/-- C4 witness: two distinct rows with no criteria under the same board
both match the empty dictionary, and `from_filters` errors out. -/
theorem C4_witness :
    Filterset.from_filters (rows_only [blank_row 1 0, blank_row 2 0]) 0 empty_filters
      = Except.error "MultipleResultsFound" :=
  (C4_one_or_none (rows_only [blank_row 1 0, blank_row 2 0]) 0 empty_filters).2.2
    (blank_row 1 0) (blank_row 2 0)
    (by decide) (by decide) (by decide) (by decide) (by decide)

/-- C7: the dictionary with every key absent matches exactly the rows
of the board with no association of any of the four kinds, empty
geonameids, equity false, remote_location false, null pay columns and
empty keywords. -/
theorem C7_empty_dict (db : DB) (board : Nat) (fs : Filterset) :
    row_matches db board empty_filters fs = true ↔
      (fs.board_id = board
        ∧ assoc_count db.fs_jobtype fs.id = 0
        ∧ assoc_count db.fs_jobcategory fs.id = 0
        ∧ assoc_count db.fs_tag fs.id = 0
        ∧ assoc_count db.fs_domain fs.id = 0
        ∧ fs.geonameids = []
        ∧ fs.equity = false
        ∧ fs.remote_location = false
        ∧ fs.pay_cash = none
        ∧ fs.pay_currency = none
        ∧ fs.keywords = "") := by
  unfold row_matches assocs_ok scalars_ok empty_filters
  simp only [List.isEmpty_nil, if_true, Bool.and_eq_true, beq_iff_eq]
  constructor
  · intro h
    obtain ⟨hb, ⟨ht, hc, hk, hd⟩, hl, he, hp, hq, ha⟩ := h
    refine ⟨hb, ht, hc, hk, hd, hl, ?_, ?_, ?_, ?_, ?_⟩
    · simpa using he
    · simpa using ha
    · rw [ite_self] at hp
      simp only [Bool.and_eq_true, beq_iff_eq] at hp
      exact hp.1
    · rw [ite_self] at hp
      simp only [Bool.and_eq_true, beq_iff_eq] at hp
      exact hp.2
    · simpa using hq
  · intro h
    obtain ⟨hb, ht, hc, hk, hd, hl, he, hr, hp1, hp2, hq⟩ := h
    refine ⟨hb, ⟨ht, hc, hk, hd⟩, hl, ?_, ?_, ?_, ?_⟩
    · simp [he]
    · simp [hp1, hp2, pay_truthy, currency_truthy]
    · simp [hq]
    · simp [hr]

/-- C7 witness: a criteria-free row under board 0 matches the empty
dictionary. -/
theorem C7_witness :
    row_matches (rows_only [blank_row 1 0]) 0 empty_filters (blank_row 1 0) = true :=
  (C7_empty_dict (rows_only [blank_row 1 0]) 0 (blank_row 1 0)).mpr (by decide)

/-- C6: any row matched by `from_filters` satisfies the scalar policy:
pay amount and currency are matched exactly when both are supplied
(truthy) and are constrained to NULL otherwise; the stored equity and
remote flags equal the supplied flags (false when absent); keywords
equal the supplied string when supplied and the empty string otherwise.
No scalar column is ever left unconstrained. -/
theorem C6_scalar_policy (db : DB) (board : Nat) (f : Filters) (fs : Filterset)
    (h : row_matches db board f fs = true) :
    ((pay_truthy f.pay && currency_truthy f.currency) = true →
        fs.pay_cash = f.pay ∧ fs.pay_currency = f.currency)
    ∧ ((pay_truthy f.pay && currency_truthy f.currency) = false →
        fs.pay_cash = none ∧ fs.pay_currency = none)
    ∧ fs.equity = f.equity
    ∧ fs.remote_location = f.anywhere
    ∧ (f.q ≠ "" → fs.keywords = f.q)
    ∧ (f.q = "" → fs.keywords = "") := by
  have hsc : scalars_ok f fs = true := by
    unfold row_matches at h
    simp only [Bool.and_eq_true] at h
    exact h.2.2
  unfold scalars_ok at hsc
  simp only [Bool.and_eq_true] at hsc
  obtain ⟨hl, heq, hpay, hq, hany⟩ := hsc
  refine ⟨?_, ?_, ?_, ?_, ?_, ?_⟩
  · intro hp
    rw [Bool.and_eq_true] at hp
    rw [if_pos hp] at hpay
    simp only [Bool.and_eq_true, beq_iff_eq] at hpay
    exact hpay
  · intro hp
    have hnp : ¬(pay_truthy f.pay = true ∧ currency_truthy f.currency = true) := by
      intro hcontra
      rw [hcontra.1, hcontra.2] at hp
      cases hp
    rw [if_neg hnp] at hpay
    simp only [Bool.and_eq_true, beq_iff_eq] at hpay
    exact hpay
  · cases hfe : f.equity
    · rw [hfe, if_neg Bool.false_ne_true] at heq
      simpa using heq
    · rw [hfe, if_pos rfl] at heq
      exact heq
  · cases hfa : f.anywhere
    · rw [hfa, if_neg Bool.false_ne_true] at hany
      simpa using hany
    · rw [hfa, if_pos rfl] at hany
      exact hany
  · intro hne
    rw [if_neg (by simpa using hne)] at hq
    simpa using hq
  · intro he
    rw [if_pos (by simp [he])] at hq
    simpa using hq

/-- Database and dictionary used by the C6 witness: one row with pay
50000 USD under board 0, looked up with the same pay criteria. -/
def ex6_row : Filterset :=
  ⟨1, 0, [], false, some "USD", some 50000, false, ""⟩

/-- Dictionary supplying pay 50000 USD and nothing else. -/
def ex6_filters : Filters :=
  ⟨[], [], [], [], [], some "USD", some 50000, false, false, ""⟩

/-- C6 witness: the matched row's pay columns equal the supplied pay
criteria exactly. -/
theorem C6_witness :
    ex6_row.pay_cash = ex6_filters.pay ∧ ex6_row.pay_currency = ex6_filters.currency :=
  (C6_scalar_policy (rows_only [ex6_row]) 0 ex6_filters ex6_row (by decide)).1 (by decide)

/-- C10: the pre-save hook raises its validation error only when the
row found by `from_filters` for the target's own criteria is a
different row; when the lookup finds the target itself (same id), the
hook saves the (geonameids-normalised) target without raising. -/
theorem C10_self_lookup (db : DB) (target : Filterset) :
    (format_and_validate db target = Except.error SaveError.valueError →
        ∃ fs, Filterset.from_filters db (normalize_geonameids target).board_id
            (Filterset.to_filters db (normalize_geonameids target)) = Except.ok (some fs)
          ∧ fs.id ≠ target.id)
    ∧ (∀ fs, Filterset.from_filters db (normalize_geonameids target).board_id
          (Filterset.to_filters db (normalize_geonameids target)) = Except.ok (some fs) →
        fs.id = target.id →
        format_and_validate db target = Except.ok (normalize_geonameids target)) := by
  constructor
  · intro h
    unfold format_and_validate at h
    split at h
    · simp at h
    · cases h
    · rename_i fs heq
      by_cases hid : (fs.id == (normalize_geonameids target).id) = true
      · rw [if_pos hid] at h
        cases h
      · refine ⟨fs, heq, ?_⟩
        rw [← normalize_id target]
        simpa using hid
  · intro fs hq hid
    unfold format_and_validate
    rw [hq]
    have hbeq : (fs.id == (normalize_geonameids target).id) = true := by
      rw [normalize_id target]
      simp [hid]
    exact if_pos hbeq

/-- C10 witness: updating a persisted criteria-free row without changing
its criteria finds the row itself and saves without error. -/
theorem C10_witness :
    format_and_validate (rows_only [blank_row 1 0]) (blank_row 1 0)
      = Except.ok (normalize_geonameids (blank_row 1 0)) :=
  (C10_self_lookup (rows_only [blank_row 1 0]) (blank_row 1 0)).2
    (blank_row 1 0) (by decide) (by decide)

/-- Database for the C1 counterexample: one criteria-free row under
board 0 associated to the two jobtypes `android` and `ios`. -/
def ex1_db : DB :=
  ⟨[blank_row 1 0], [(1, "android"), (2, "ios")], [], [], [],
    [(1, 1), (1, 2)], [], [], []⟩

/-- Dictionary supplying only the jobtype list `["android"]`. -/
def ex1_filters : Filters :=
  ⟨["android"], [], [], [], [], none, none, false, false, ""⟩

/-- C1 counterexample: `from_filters` returns the row whose jobtype
associations are `{android, ios}` for the supplied list `["android"]`,
so a strict superset of the supplied set does match, contradicting the
claimed exact-set (never-a-superset) semantics. -/
theorem C1_counterexample :
    Filterset.from_filters ex1_db 0 ex1_filters = Except.ok (some (blank_row 1 0))
      ∧ "ios" ∈ assoc_names ex1_db.jobtypes ex1_db.fs_jobtype (blank_row 1 0).id
      ∧ "ios" ∉ ex1_filters.t := by
  decide

/-- C1 amended: per many-to-many kind, an absent or empty list matches
only rows with no association of that kind at all (that part of the
claim holds); a supplied non-empty list is matched by a count test, not
an exact-set test: with the other three lists empty, any row whose
duplicate-free association names merely CONTAIN the supplied
duplicate-free list (and whose scalar criteria agree) matches. -/
theorem C1_count_based_matching :
    (∀ (db : DB) (board : Nat) (f : Filters) (fs : Filterset),
        row_matches db board f fs = true →
          (f.t = [] → assoc_count db.fs_jobtype fs.id = 0)
          ∧ (f.c = [] → assoc_count db.fs_jobcategory fs.id = 0)
          ∧ (f.k = [] → assoc_count db.fs_tag fs.id = 0)
          ∧ (f.d = [] → assoc_count db.fs_domain fs.id = 0))
    ∧ (∀ (db : DB) (board : Nat) (f : Filters) (fs : Filterset),
        fs.board_id = board →
        f.c = [] → f.k = [] → f.d = [] →
        f.t ≠ [] → f.t.Nodup →
        (assoc_names db.jobtypes db.fs_jobtype fs.id).Nodup →
        (∀ x ∈ f.t, x ∈ assoc_names db.jobtypes db.fs_jobtype fs.id) →
        assoc_count db.fs_jobcategory fs.id = 0 →
        assoc_count db.fs_tag fs.id = 0 →
        assoc_count db.fs_domain fs.id = 0 →
        scalars_ok f fs = true →
        row_matches db board f fs = true) := by
  constructor
  · intro db board f fs h
    unfold row_matches at h
    simp only [Bool.and_eq_true] at h
    obtain ⟨hb, hao, hsc⟩ := h
    unfold assocs_ok at hao
    simp only [Bool.and_eq_true] at hao
    obtain ⟨ht, hc, hk, hd⟩ := hao
    refine ⟨?_, ?_, ?_, ?_⟩
    · intro he; rw [he] at ht; simpa using ht
    · intro he; rw [he] at hc; simpa using hc
    · intro he; rw [he] at hk; simpa using hk
    · intro he; rw [he] at hd; simpa using hd
  · intro db board f fs hb hce hke hde htne htnd hnnd hsup hc0 hk0 hd0 hsc
    have hkey : match_count db.jobtypes db.fs_jobtype fs.id f.t = f.t.length := by
      rw [match_count_eq]
      exact length_filter_mem hnnd htnd hsup
    have hte : f.t.isEmpty = false := by
      simpa [List.isEmpty_iff] using htne
    have hao : assocs_ok db f fs.id = true := by
      unfold assocs_ok group_count
      rw [hce, hke, hde]
      simp only [List.isEmpty_nil, if_true]
      rw [if_neg (by simp [hte]), if_neg (by simp [hte])]
      simp [hkey, hc0, hk0, hd0]
    unfold row_matches
    rw [hao, hsc]
    simp [hb]

/-- C1 witness for the amended claim: the superset row of `ex1_db`
matches the strictly smaller supplied list `["android"]`. -/
theorem C1_witness : row_matches ex1_db 0 ex1_filters (blank_row 1 0) = true :=
  C1_count_based_matching.2 ex1_db 0 ex1_filters (blank_row 1 0)
    (by decide) (by decide) (by decide) (by decide) (by decide) (by decide)
    (by decide) (by decide) (by decide) (by decide) (by decide) (by decide)

/-- Database for the C2 counterexample: a persisted row associated to
one jobtype and two jobcategories.  Its canonical dictionary joins both
kinds, the group size is 1 * 2 = 2, and the jobtype HAVING clause
compares 2 with 1, so the row fails its own lookup. -/
def ex2_db : DB :=
  ⟨[blank_row 1 0], [(1, "android")], [(1, "design"), (2, "qa")], [], [],
    [(1, 1)], [(1, 1), (1, 2)], [], []⟩

/-- C2 counterexample: a well-formed database with a persisted row whose
own `to_filters` dictionary makes `from_filters` return `ok none`
instead of the row itself. -/
theorem C2_counterexample :
    blank_row 1 0 ∈ ex2_db.filtersets
      ∧ (ex2_db.filtersets.map Filterset.id).Nodup
      ∧ Filterset.from_filters ex2_db (blank_row 1 0).board_id
          (Filterset.to_filters ex2_db (blank_row 1 0)) = Except.ok none := by
  decide

/-- C2 amended: the roundtrip `from_filters(board, to_filters(fs)) = fs`
holds for a persisted row whenever every populated many-to-many kind's
HAVING clause is satisfiable against the row itself — the cross-product
group size (`own_group`) equals that kind's association count, which
holds in particular when at most one kind is populated and when every
populated kind has exactly one association — and the row's association
rows resolve, its `geonameids` are stored sorted, its pay columns are
both truthy or both null, and it is the unique row matching its own
dictionary in a well-formed database.  The counterexample's row (one
jobtype, two jobcategories) violates the group condition. -/
theorem C2_roundtrip (db : DB) (fs : Filterset)
    (hwf : well_formed db)
    (hmem : fs ∈ db.filtersets)
    (hres_t : ∀ p ∈ db.fs_jobtype, p.1 = fs.id → (entity_name db.jobtypes p.2).isSome)
    (hres_c : ∀ p ∈ db.fs_jobcategory, p.1 = fs.id → (entity_name db.jobcategories p.2).isSome)
    (hres_k : ∀ p ∈ db.fs_tag, p.1 = fs.id → (entity_name db.tags p.2).isSome)
    (hres_d : ∀ p ∈ db.fs_domain, p.1 = fs.id → (entity_name db.domains p.2).isSome)
    (hprod_t : assoc_count db.fs_jobtype fs.id = 0
        ∨ own_group db fs = assoc_count db.fs_jobtype fs.id)
    (hprod_c : assoc_count db.fs_jobcategory fs.id = 0
        ∨ own_group db fs = assoc_count db.fs_jobcategory fs.id)
    (hprod_k : assoc_count db.fs_tag fs.id = 0
        ∨ own_group db fs = assoc_count db.fs_tag fs.id)
    (hprod_d : assoc_count db.fs_domain fs.id = 0
        ∨ own_group db fs = assoc_count db.fs_domain fs.id)
    (hsor : List.Sorted (· ≤ ·) fs.geonameids)
    (hpay : (pay_truthy fs.pay_cash = true ∧ currency_truthy fs.pay_currency = true)
        ∨ (fs.pay_cash = none ∧ fs.pay_currency = none))
    (huniq : ∀ g ∈ db.filtersets,
        row_matches db fs.board_id (Filterset.to_filters db fs) g = true → g = fs) :
    Filterset.from_filters db fs.board_id (Filterset.to_filters db fs)
      = Except.ok (some fs) := by
  have hmatch := matches_self db fs hres_t hres_c hres_k hres_d
    hprod_t hprod_c hprod_k hprod_d hsor hpay
  have hnd : db.filtersets.Nodup := by
    unfold well_formed at hwf
    exact hwf.of_map
  have hfil : db.filtersets.filter
      (row_matches db fs.board_id (Filterset.to_filters db fs)) = [fs] :=
    filter_eq_singleton hnd hmem hmatch huniq
  unfold Filterset.from_filters
  rw [hfil]

/-- Persisted row for the C2 witness: sorted geonameids, truthy pay
columns, keywords. -/
def ex2w_row : Filterset :=
  ⟨1, 0, [5, 9], false, some "INR", some 10, false, "python"⟩

/-- Database for the C2 witness: the row is associated to one jobtype
AND one jobcategory — two populated kinds, each with one association,
so the group size is 1 * 1 = 1 and both HAVING clauses pass. -/
def ex2w_db : DB :=
  ⟨[ex2w_row], [(1, "android")], [(1, "design")], [], [],
    [(1, 1)], [(1, 1)], [], []⟩

/-- C2 witness: the jobtype-and-jobcategory row (two populated kinds of
one association each) is returned by its own dictionary. -/
theorem C2_witness :
    Filterset.from_filters ex2w_db ex2w_row.board_id
        (Filterset.to_filters ex2w_db ex2w_row) = Except.ok (some ex2w_row) :=
  C2_roundtrip ex2w_db ex2w_row (by unfold well_formed; decide) (by decide)
    (by decide) (by decide) (by decide) (by decide) (by decide) (by decide)
    (by decide) (by decide) (by decide) (by decide) (by decide)

/-- The normalised target always has sorted geonameids. -/
lemma normalize_sorted (fs : Filterset) :
    List.Sorted (· ≤ ·) (normalize_geonameids fs).geonameids := by
  unfold normalize_geonameids
  by_cases he : fs.geonameids.isEmpty
  · rw [if_pos he]
    rw [List.isEmpty_iff.mp he]
    exact List.sorted_nil
  · rw [if_neg he]
    exact List.sorted_insertionSort _ _

/-- Database for the C3 counterexample: the persisted row 2 and the
about-to-be-saved row 1 share the same criteria — one jobtype and two
jobcategories each — under board 0. -/
def ex3_db : DB :=
  ⟨[blank_row 2 0], [(1, "android")], [(1, "design"), (2, "qa")], [], [],
    [(1, 1), (2, 1)], [(1, 1), (1, 2), (2, 1), (2, 2)], [], []⟩

/-- C3 counterexample: the target's re-derived canonical dictionary
equals that of the already-persisted different row 2 under the same
board, yet the pre-save hook does not raise: the colliding row is
saved, because `from_filters` cannot see the collision (the joint
jobtype/jobcategory joins make the group count 2 while the jobtype
clause expects 1). -/
theorem C3_counterexample :
    Filterset.to_filters ex3_db (blank_row 1 0) = Filterset.to_filters ex3_db (blank_row 2 0)
      ∧ blank_row 2 0 ∈ ex3_db.filtersets
      ∧ (blank_row 2 0).id ≠ (blank_row 1 0).id
      ∧ (blank_row 2 0).board_id = (blank_row 1 0).board_id
      ∧ format_and_validate ex3_db (blank_row 1 0) = Except.ok (blank_row 1 0) := by
  decide

/-- C3 amended: the pre-save hook raises the validation error exactly
when `from_filters` can see the collision: when a different persisted
row under the target's board carries the target's canonical dictionary,
its association rows resolve, every populated kind of it satisfies the
group condition (`own_group` equals that kind's count — in particular
any single populated kind of any of the four, or one association per
populated kind), its pay columns are consistent and it is the unique
match, saving the target raises `ValueError` and nothing is stored. -/
theorem C3_collision_detected (db : DB) (target other : Filterset)
    (hwf : well_formed db)
    (hmem : other ∈ db.filtersets)
    (hne : other.id ≠ target.id)
    (hres_t : ∀ p ∈ db.fs_jobtype, p.1 = other.id → (entity_name db.jobtypes p.2).isSome)
    (hres_c : ∀ p ∈ db.fs_jobcategory, p.1 = other.id →
        (entity_name db.jobcategories p.2).isSome)
    (hres_k : ∀ p ∈ db.fs_tag, p.1 = other.id → (entity_name db.tags p.2).isSome)
    (hres_d : ∀ p ∈ db.fs_domain, p.1 = other.id → (entity_name db.domains p.2).isSome)
    (hprod_t : assoc_count db.fs_jobtype other.id = 0
        ∨ own_group db other = assoc_count db.fs_jobtype other.id)
    (hprod_c : assoc_count db.fs_jobcategory other.id = 0
        ∨ own_group db other = assoc_count db.fs_jobcategory other.id)
    (hprod_k : assoc_count db.fs_tag other.id = 0
        ∨ own_group db other = assoc_count db.fs_tag other.id)
    (hprod_d : assoc_count db.fs_domain other.id = 0
        ∨ own_group db other = assoc_count db.fs_domain other.id)
    (hpay : (pay_truthy other.pay_cash = true ∧ currency_truthy other.pay_currency = true)
        ∨ (other.pay_cash = none ∧ other.pay_currency = none))
    (hbd : other.board_id = target.board_id)
    (heq : Filterset.to_filters db (normalize_geonameids target)
        = Filterset.to_filters db other)
    (huniq : ∀ g ∈ db.filtersets,
        row_matches db (normalize_geonameids target).board_id
          (Filterset.to_filters db (normalize_geonameids target)) g = true → g = other) :
    format_and_validate db target = Except.error SaveError.valueError := by
  have hsor : List.Sorted (· ≤ ·) other.geonameids := by
    have h1 : (Filterset.to_filters db other).l = other.geonameids := rfl
    have h2 : (Filterset.to_filters db (normalize_geonameids target)).l
        = (normalize_geonameids target).geonameids := rfl
    rw [← h1, ← heq, h2]
    exact normalize_sorted target
  have hmatch := matches_self db other hres_t hres_c hres_k hres_d
    hprod_t hprod_c hprod_k hprod_d hsor hpay
  have hmatch' : row_matches db (normalize_geonameids target).board_id
      (Filterset.to_filters db (normalize_geonameids target)) other = true := by
    rw [heq, normalize_board, ← hbd]
    exact hmatch
  have hnd : db.filtersets.Nodup := by
    unfold well_formed at hwf
    exact hwf.of_map
  have hfil := filter_eq_singleton hnd hmem hmatch' huniq
  have hff : Filterset.from_filters db (normalize_geonameids target).board_id
      (Filterset.to_filters db (normalize_geonameids target)) = Except.ok (some other) := by
    unfold Filterset.from_filters
    rw [hfil]
  unfold format_and_validate
  rw [hff]
  exact if_neg (by rw [normalize_id]; simp [hne])

/-- Database for the C3 witness: rows 1 (target, unsaved) and 2
(persisted) share the single jobcategory `design` and nothing else —
a collision whose only populated kind is NOT the jobtype kind. -/
def ex3w_db : DB :=
  ⟨[blank_row 2 0], [], [(1, "design")], [], [], [], [(1, 1), (2, 1)], [], []⟩

/-- C3 witness: the jobcategory-only collision raises the validation
error. -/
theorem C3_witness :
    format_and_validate ex3w_db (blank_row 1 0) = Except.error SaveError.valueError :=
  C3_collision_detected ex3w_db (blank_row 1 0) (blank_row 2 0)
    (by unfold well_formed; decide) (by decide) (by decide) (by decide)
    (by decide) (by decide) (by decide) (by decide) (by decide) (by decide)
    (by decide) (by decide) (by decide) (by decide) (by decide)

/-- Dictionary for the C9 counterexample: a duplicated jobtype list and
a two-element jobcategory list. -/
def ex9_filters : Filters :=
  ⟨["android", "android"], ["design", "qa"], [], [], [], none, none, false, false, ""⟩

/-- C9 counterexample: against `ex2_db` (one jobtype `android`, two
jobcategories), the supplied jobtype list `["android", "android"]` has
duplicates and the row's association names equal its de-duplication,
yet the row IS returned: the jobcategory join doubles the group count to
2, which equals the raw duplicated length, so the count test passes. -/
theorem C9_counterexample :
    ¬ ex9_filters.t.Nodup
      ∧ assoc_names ex2_db.jobtypes ex2_db.fs_jobtype (blank_row 1 0).id
          = ex9_filters.t.dedup
      ∧ Filterset.from_filters ex2_db 0 ex9_filters = Except.ok (some (blank_row 1 0)) := by
  refine ⟨by decide, by decide, by decide⟩

/-- C9 amended: when the duplicated jobtype list is the only non-empty
many-to-many criterion (so no other join can inflate the group count),
the count test compares the number of distinct matching associations
with the raw duplicated length, so a row whose association names equal
the de-duplicated list never matches. -/
theorem C9_duplicate_lengths (db : DB) (board : Nat) (f : Filters) (fs : Filterset)
    (hce : f.c = []) (hke : f.k = []) (hde : f.d = [])
    (hdup : ¬ f.t.Nodup)
    (hnames : assoc_names db.jobtypes db.fs_jobtype fs.id = f.t.dedup) :
    row_matches db board f fs = false := by
  cases hm : row_matches db board f fs with
  | false => rfl
  | true =>
    exfalso
    unfold row_matches assocs_ok at hm
    simp only [Bool.and_eq_true] at hm
    obtain ⟨hb, ⟨ht, _hc, _hk, _hd⟩, _hsc⟩ := hm
    have htne : f.t ≠ [] := fun hnil => hdup (hnil ▸ List.nodup_nil)
    have hte : f.t.isEmpty = false := by
      simpa [List.isEmpty_iff] using htne
    rw [if_neg (by simp [hte])] at ht
    unfold group_count at ht
    rw [hce, hke, hde] at ht
    simp only [List.isEmpty_nil, if_true, Nat.mul_one] at ht
    rw [if_neg (by simp [hte])] at ht
    have hmc : match_count db.jobtypes db.fs_jobtype fs.id f.t = f.t.dedup.length := by
      rw [match_count_eq, hnames]
      congr 1
      rw [List.filter_eq_self]
      intro n hn
      simp only [decide_eq_true_eq]
      exact List.mem_dedup.mp hn
    have hlt : f.t.dedup.length < f.t.length := by
      have hsub := List.dedup_sublist f.t
      cases Nat.lt_or_ge f.t.dedup.length f.t.length with
      | inl h => exact h
      | inr hge =>
        have heqlen : f.t.dedup.length = f.t.length :=
          Nat.le_antisymm hsub.length_le hge
        have hde2 : f.t.dedup = f.t := hsub.eq_of_length heqlen
        exact absurd (hde2 ▸ List.nodup_dedup f.t) hdup
    rw [hmc] at ht
    have hcontra : f.t.dedup.length = f.t.length := by simpa using ht
    exact absurd hcontra (Nat.ne_of_lt hlt)

/-- Database for the C9 witness: one row with the single jobtype
`android` and no other criterion. -/
def ex9w_db : DB :=
  ⟨[blank_row 1 0], [(1, "android")], [], [], [], [(1, 1)], [], [], []⟩

/-- Dictionary for the C9 witness: only the duplicated jobtype list. -/
def ex9w_filters : Filters :=
  ⟨["android", "android"], [], [], [], [], none, none, false, false, ""⟩

/-- C9 witness: with the duplicated list as the only criterion, the row
whose association names equal the de-duplicated list does not match. -/
theorem C9_witness : row_matches ex9w_db 0 ex9w_filters (blank_row 1 0) = false :=
  C9_duplicate_lengths ex9w_db 0 ex9w_filters (blank_row 1 0)
    (by decide) (by decide) (by decide) (by decide) (by decide)
